import Mathlib

/-!
Verification of the CUPS job adaptation layer (`src/unix/cups/jobs.rs`)
of the `rust-printers` repository, as a shallow embedding in Lean 4.

Modelling conventions:
* A native C string pointer is modelled as `Option String`
  (`none` = null pointer, `some s` = a valid pointer to string `s`).
* Native integers (`c_int`, `time_t`, `i32`) are modelled as `Int`;
  where a cast's wrapping behaviour matters it is made explicit with `% 2 ^ w`.
* Host `SystemTime` values are modelled as `Int` (seconds relative to the
  Unix epoch), which suffices for the properties at stake here.
* The native library calls `cupsGetJobs` and `cupsPrintFile` are external
  collaborators; they are modelled as explicit function parameters (an
  environment) passed to the embedded functions, so that every statement
  quantifies over all possible behaviours of the native service.
* A Rust panic (`.unwrap()` on `None`) is modelled by returning `none`
  from the embedded accessor, together with a `Prop` naming the panic.
-/

/-- The native job record `CupsJobsS` (src/unix/cups/jobs.rs, lines 31-45).
Field order and meaning follow the `#[repr(C)]` struct. -/
structure CupsJobsS where
  id : Int
  dest : Option String
  title : Option String
  user : Option String
  format : Option String
  state : Int
  size : Int
  priority : Int
  completed_time : Int
  creation_time : Int
  processing_time : Int
deriving Repr, DecidableEq

/-- The native option pair `CupsOptionT` (from src/unix/cups/dests.rs, not
under src/): a name/value pair of C strings.  The pointers built by
`print_file` always come from valid `CStr` constants, so they are modelled
directly as the strings they point to. -/
structure CupsOptionT where
  name : String
  value : String
deriving Repr, DecidableEq

/-- Modelled from the spec: the print orientation option variants of
`PrintOrientation` (src/common/base/printer.rs, not under src/):
"an options bag; currently only `orientation` (variant: portrait |
landscape) is modeled". -/
inductive PrintOrientation where
  | portrait
  | landscape
deriving Repr, DecidableEq

/-- Modelled from the spec: the options bag `PrintOptions`
(src/common/base/printer.rs, not under src/): "an options bag; currently
only `orientation` (variant: portrait | landscape) is modeled". -/
structure PrintOptions where
  orientation : Option PrintOrientation
deriving Repr, DecidableEq

/-- Modelled from the spec: the conversion helper `c_char_to_string`
(src/unix/utils/strings.rs, not under src/): "C-string-to-host-string
(null pointer → empty string)".  A null pointer yields the empty string,
a valid pointer yields the pointed-to string. -/
def c_char_to_string (p : Option String) : String :=
  p.getD ""

/-- Modelled from the spec: the conversion helper `time_t_to_system_time`
(src/unix/utils/date.rs, not under src/): "native-epoch-seconds-to-host-time
(fails/returns-absent for non-representable or zero values)"; "a value of
zero (or any value the conversion helper rejects) means timestamp not
applicable yet".  Zero is rejected; any other value converts to the host
time holding the same epoch seconds. -/
def time_t_to_system_time (t : Int) : Option Int :=
  if t = 0 then none else some t

/-- Two's-complement widening cast `v as u64` applied to a Rust `i32`
value `v` (`self.id as u64`, `self.state as u64`): sign-extension, i.e.
reduction of the signed value modulo `2 ^ 64`. -/
def i32_as_u64 (v : Int) : Nat :=
  (v % 2 ^ 64).toNat

/-- `get_id` (src/unix/cups/jobs.rs, lines 48-50): `self.id as u64`. -/
def CupsJobsS.get_id (self : CupsJobsS) : Nat :=
  i32_as_u64 self.id

/-- `get_name` (lines 52-54): `c_char_to_string(self.title)`. -/
def CupsJobsS.get_name (self : CupsJobsS) : String :=
  c_char_to_string self.title

/-- `get_state` (lines 56-58): `self.state as u64`. -/
def CupsJobsS.get_state (self : CupsJobsS) : Nat :=
  i32_as_u64 self.state

/-- `get_printer` (lines 60-62): `c_char_to_string(self.dest)`. -/
def CupsJobsS.get_printer (self : CupsJobsS) : String :=
  c_char_to_string self.dest

/-- `get_media_type` (lines 64-66): `c_char_to_string(self.format)`. -/
def CupsJobsS.get_media_type (self : CupsJobsS) : String :=
  c_char_to_string self.format

/-- `get_created_at` (lines 68-70):
`time_t_to_system_time(self.creation_time).unwrap()`.  The `.unwrap()`
panics when the conversion yields `None`; the embedding keeps the
`Option` so that the panic is observable as `none`. -/
def CupsJobsS.get_created_at (self : CupsJobsS) : Option Int :=
  time_t_to_system_time self.creation_time

/-- `get_created_at` panics exactly when the `.unwrap()` in the source
meets a `None` from the conversion helper. -/
def CupsJobsS.get_created_at_panics (self : CupsJobsS) : Prop :=
  time_t_to_system_time self.creation_time = none

instance (self : CupsJobsS) : Decidable self.get_created_at_panics := by
  unfold CupsJobsS.get_created_at_panics
  infer_instance

/-- `get_processed_at` (lines 72-74):
`time_t_to_system_time(self.processing_time)`. -/
def CupsJobsS.get_processed_at (self : CupsJobsS) : Option Int :=
  time_t_to_system_time self.processing_time

/-- `get_completed_at` (lines 76-78):
`time_t_to_system_time(self.completed_time)`. -/
def CupsJobsS.get_completed_at (self : CupsJobsS) : Option Int :=
  time_t_to_system_time self.completed_time

/-- The argument tuple `get_printer_jobs` passes to the native
`cupsGetJobs` call (line 90):
`cupsGetJobs(&mut jobs_ptr, name.as_ptr(), 0, whichjobs)` with
`whichjobs = if active_only { 0 } else { -1 }` (line 86). -/
structure GetJobsArgs where
  printerName : String
  myjobs : Int
  whichjobs : Int
deriving Repr, DecidableEq

/-- The arguments built by `get_printer_jobs` (lines 86-90). -/
def getJobsArgs (printer_name : String) (active_only : Bool) : GetJobsArgs :=
  { printerName := printer_name
    myjobs := 0
    whichjobs := if active_only then 0 else -1 }

/-- The native `cupsGetJobs` call, modelled as an environment: given the
argument tuple it returns the reported count (`c_int`) together with the
contents of the native-owned memory the out-pointer is made to point at,
as a list of records. -/
def GetJobsEnv : Type :=
  GetJobsArgs → Int × List CupsJobsS

/-- `get_printer_jobs` (src/unix/cups/jobs.rs, lines 84-97): issue the
native call and, when the reported count is positive, build the borrowed
slice `slice::from_raw_parts(jobs_ptr, jobs_count as usize)` — the first
`jobs_count` records of the native memory — otherwise return `None`. -/
def get_printer_jobs (env : GetJobsEnv) (printer_name : String)
    (active_only : Bool) : Option (List CupsJobsS) :=
  let r := env (getJobsArgs printer_name active_only)
  let jobs_count := r.1
  if jobs_count > 0 then some (r.2.take jobs_count.toNat) else none

/-- The constant `CUPS_ORIENTATION` (line 101). -/
def CUPS_ORIENTATION : String := "orientation-requested"

/-- The constant `CUPS_ORIENTATION_PORTRAIT` (line 102). -/
def CUPS_ORIENTATION_PORTRAIT : String := "3"

/-- The constant `CUPS_ORIENTATION_LANDSCAPE` (line 103). -/
def CUPS_ORIENTATION_LANDSCAPE : String := "4"

/-- The option vector built by `print_file` (lines 109-122): one pair for
a specified orientation (`"4"` for landscape, otherwise `"3"`), nothing
when no orientation is specified. -/
def buildOptionsVec (options : PrintOptions) : List CupsOptionT :=
  match options.orientation with
  | none => []
  | some orientation =>
      let value :=
        if orientation = PrintOrientation.landscape then
          CUPS_ORIENTATION_LANDSCAPE
        else
          CUPS_ORIENTATION_PORTRAIT
      [{ name := CUPS_ORIENTATION, value := value }]

/-- The argument tuple `print_file` passes to the native `cupsPrintFile`
call (line 129).  `str_to_cstring` (src/unix/utils/strings.rs, not under
src/) is, per the spec, plain "host-string-to-C-string" conversion, so the
C strings are modelled as the host strings themselves. -/
structure PrintFileArgs where
  printer : String
  filename : String
  title : String
  num_options : Int
  options : List CupsOptionT
deriving Repr, DecidableEq

/-- The arguments built by `print_file` (lines 125-129): printer, file
path and title (`job_name.unwrap_or(file_path)`), the option count
`options_vec.len() as c_int`, and the option vector itself. -/
def printFileArgs (printer_name file_path : String)
    (job_name : Option String) (options : PrintOptions) : PrintFileArgs :=
  let options_vec := buildOptionsVec options
  { printer := printer_name
    filename := file_path
    title := job_name.getD file_path
    num_options := (options_vec.length : Int)
    options := options_vec }

/-- The native `cupsPrintFile` call, modelled as an environment: given the
argument tuple it returns the native `i32` result (request id, or `0` for
failure). -/
def PrintFileEnv : Type :=
  PrintFileArgs → Int

/-- `print_file` (src/unix/cups/jobs.rs, lines 108-136): build the option
vector and the C-string arguments, invoke the native call, and map a `0`
result to `Err("cupsPrintFile failed")` and anything else to `Ok(())`. -/
def print_file (env : PrintFileEnv) (printer_name file_path : String)
    (job_name : Option String) (options : PrintOptions) :
    Except String Unit :=
  let result := env (printFileArgs printer_name file_path job_name options)
  if result = 0 then Except.error "cupsPrintFile failed" else Except.ok ()

/-! Sample values used by the witness theorems. -/

/-- A concrete native job record. -/
def sampleJob : CupsJobsS :=
  { id := 7, dest := some "Office-LaserJet", title := some "report"
    user := some "alice", format := some "application/pdf", state := 5
    size := 1024, priority := 50, completed_time := 0
    creation_time := 1700000000, processing_time := 0 }

/-- A `cupsGetJobs` environment reporting three jobs. -/
def envThreeJobs : GetJobsEnv :=
  fun _ => (3, [sampleJob, sampleJob, sampleJob])

/-- A `cupsGetJobs` environment reporting a zero count. -/
def envNoJobs : GetJobsEnv :=
  fun _ => (0, [])

/-- A `cupsPrintFile` environment that always rejects (returns 0). -/
def envReject : PrintFileEnv :=
  fun _ => 0

/-- A native job record whose three string pointers are all null. -/
def nullStringsJob : CupsJobsS :=
  { sampleJob with title := none, dest := none, format := none }

/-- A native job record with negative id and state fields. -/
def negativeIdJob : CupsJobsS :=
  { sampleJob with id := -1, state := -2 }

/-- A `cupsPrintFile` environment that returns the negative id -5. -/
def envNegativeId : PrintFileEnv :=
  fun _ => -5

/-! Theorems settling the claims. -/

/-- C1: for every printer name (including the empty string) and both
filter modes, `get_printer_jobs` returns `none` when the native call
reports a count of zero or less, and otherwise returns a view whose
length equals exactly the native-reported count.  The hypothesis is the
native contract that the reported memory holds at least the reported
number of records. -/
theorem get_printer_jobs_length (env : GetJobsEnv) (printer_name : String)
    (active_only : Bool)
    (hmem : (env (getJobsArgs printer_name active_only)).1.toNat ≤
      (env (getJobsArgs printer_name active_only)).2.length) :
    ((env (getJobsArgs printer_name active_only)).1 ≤ 0 →
      get_printer_jobs env printer_name active_only = none) ∧
    (0 < (env (getJobsArgs printer_name active_only)).1 →
      ∃ view, get_printer_jobs env printer_name active_only = some view ∧
        (view.length : Int) = (env (getJobsArgs printer_name active_only)).1) := by
  unfold get_printer_jobs
  constructor
  · intro hle
    simp only [gt_iff_lt]
    rw [if_neg (by omega)]
  · intro hpos
    refine ⟨_, by simp only [gt_iff_lt]; rw [if_pos hpos], ?_⟩
    rw [List.length_take]
    omega

/-- C1 witness: a native environment reporting three jobs yields a
present view of length three. -/
theorem get_printer_jobs_length_witness :
    ∃ view, get_printer_jobs envThreeJobs "Office-LaserJet" true = some view ∧
      (view.length : Int) =
        (envThreeJobs (getJobsArgs "Office-LaserJet" true)).1 :=
  (get_printer_jobs_length envThreeJobs "Office-LaserJet" true
    (by decide)).2 (by decide)

/-- C2: `print_file` fails exactly when the native call returns `0`, and
succeeds for every nonzero return value, negative values included. -/
theorem print_file_result (env : PrintFileEnv) (printer_name file_path : String)
    (job_name : Option String) (options : PrintOptions) :
    (print_file env printer_name file_path job_name options =
        Except.error "cupsPrintFile failed" ↔
      env (printFileArgs printer_name file_path job_name options) = 0) ∧
    (env (printFileArgs printer_name file_path job_name options) ≠ 0 →
      print_file env printer_name file_path job_name options =
        Except.ok ()) := by
  by_cases h : env (printFileArgs printer_name file_path job_name options) = 0 <;>
    simp [print_file, h]

/-- C2 witness: a native environment returning the negative id `-5`
makes `print_file` succeed. -/
theorem print_file_result_witness :
    print_file envNegativeId "Office-LaserJet" "/tmp/report.pdf" none
      ⟨none⟩ = Except.ok () :=
  (print_file_result envNegativeId "Office-LaserJet" "/tmp/report.pdf" none
    ⟨none⟩).2 (by decide)

/-- C3: landscape orientation yields exactly the pair
`("orientation-requested", "4")`, portrait yields exactly
`("orientation-requested", "3")`, no orientation yields no pairs, and the
count passed to the native call equals the number of constructed pairs. -/
theorem print_file_option_pairs (printer_name file_path : String)
    (job_name : Option String) (options : PrintOptions) :
    (options.orientation = some PrintOrientation.landscape →
      (printFileArgs printer_name file_path job_name options).options =
        [{ name := "orientation-requested", value := "4" }]) ∧
    (options.orientation = some PrintOrientation.portrait →
      (printFileArgs printer_name file_path job_name options).options =
        [{ name := "orientation-requested", value := "3" }]) ∧
    (options.orientation = none →
      (printFileArgs printer_name file_path job_name options).options = []) ∧
    (printFileArgs printer_name file_path job_name options).num_options =
      ((printFileArgs printer_name file_path job_name options).options.length :
        Int) := by
  obtain ⟨o⟩ := options
  cases o with
  | none => simp [printFileArgs, buildOptionsVec]
  | some orientation =>
      cases orientation <;>
        simp [printFileArgs, buildOptionsVec, CUPS_ORIENTATION,
          CUPS_ORIENTATION_PORTRAIT, CUPS_ORIENTATION_LANDSCAPE]

/-- C3 witness: a landscape request builds exactly the
`("orientation-requested", "4")` pair. -/
theorem print_file_option_pairs_witness :
    (printFileArgs "Office-LaserJet" "/tmp/report.pdf" none
        ⟨some PrintOrientation.landscape⟩).options =
      [{ name := "orientation-requested", value := "4" }] :=
  (print_file_option_pairs "Office-LaserJet" "/tmp/report.pdf" none
    ⟨some PrintOrientation.landscape⟩).1 rfl

/-- C4: the optional timestamp accessors yield `none` whenever the
conversion helper rejects the native field (in particular when it is
zero), and yield exactly the helper's conversion whenever it accepts. -/
theorem optional_timestamp_accessors (r : CupsJobsS) :
    (r.processing_time = 0 → r.get_processed_at = none) ∧
    (r.completed_time = 0 → r.get_completed_at = none) ∧
    (time_t_to_system_time r.processing_time = none →
      r.get_processed_at = none) ∧
    (time_t_to_system_time r.completed_time = none →
      r.get_completed_at = none) ∧
    (∀ t, time_t_to_system_time r.processing_time = some t →
      r.get_processed_at = some t) ∧
    (∀ t, time_t_to_system_time r.completed_time = some t →
      r.get_completed_at = some t) := by
  unfold CupsJobsS.get_processed_at CupsJobsS.get_completed_at
  refine ⟨?_, ?_, ?_, ?_, ?_, ?_⟩ <;>
    simp_all [time_t_to_system_time]

/-- C4 witness: a record whose processing time is zero has an absent
processed-at value. -/
theorem optional_timestamp_accessors_witness :
    sampleJob.get_processed_at = none :=
  (optional_timestamp_accessors sampleJob).1 rfl

/-- C5: `get_created_at` panics exactly when the conversion of the
record's creation time fails, and returns the converted time when the
conversion succeeds. -/
theorem get_created_at_required (r : CupsJobsS) :
    (r.get_created_at_panics ↔
      time_t_to_system_time r.creation_time = none) ∧
    (∀ t, time_t_to_system_time r.creation_time = some t →
      r.get_created_at = some t) := by
  unfold CupsJobsS.get_created_at CupsJobsS.get_created_at_panics
  exact ⟨Iff.rfl, fun t ht => ht⟩

/-- C5 witness: the sample record's creation time converts, so
`get_created_at` returns it and does not panic. -/
theorem get_created_at_required_witness :
    sampleJob.get_created_at = some 1700000000 :=
  (get_created_at_required sampleJob).2 1700000000 rfl

/-- C6: the native list-jobs call is always issued with `myjobs = 0`
(all users) and with `whichjobs = 0` when `active_only` is true and
`whichjobs = -1` when it is false, for the requested printer name. -/
theorem get_jobs_native_args (printer_name : String) (active_only : Bool) :
    (getJobsArgs printer_name active_only).myjobs = 0 ∧
    (getJobsArgs printer_name active_only).whichjobs =
      (if active_only then (0 : Int) else -1) ∧
    (getJobsArgs printer_name active_only).printerName = printer_name := by
  cases active_only <;> exact ⟨rfl, rfl, rfl⟩

/-- C7: the title passed to the native submission call is the file path
when no job name is given, and the job name when one is given. -/
theorem print_file_title (printer_name file_path job_name : String)
    (options : PrintOptions) :
    (printFileArgs printer_name file_path none options).title = file_path ∧
    (printFileArgs printer_name file_path (some job_name) options).title =
      job_name :=
  ⟨rfl, rfl⟩

/-- C8: a null native string pointer makes the corresponding string
accessor return the empty string. -/
theorem null_pointer_accessors (r : CupsJobsS) :
    (r.title = none → r.get_name = "") ∧
    (r.dest = none → r.get_printer = "") ∧
    (r.format = none → r.get_media_type = "") := by
  unfold CupsJobsS.get_name CupsJobsS.get_printer CupsJobsS.get_media_type
  refine ⟨?_, ?_, ?_⟩ <;> intro h <;> simp [h, c_char_to_string]

/-- C8 witness: a record with all string pointers null yields empty
strings from all three accessors. -/
theorem null_pointer_accessors_witness :
    nullStringsJob.get_name = "" :=
  (null_pointer_accessors nullStringsJob).1 rfl

/-- C9: `get_id` and `get_state` widen the signed 32-bit native value to
an unsigned 64-bit value without failing: non-negative values map to the
same number, negative values wrap by two's-complement sign extension to
the value plus `2 ^ 64`. -/
theorem id_state_widening (r : CupsJobsS)
    (hid₁ : -2 ^ 31 ≤ r.id) (hid₂ : r.id < 2 ^ 31)
    (hst₁ : -2 ^ 31 ≤ r.state) (hst₂ : r.state < 2 ^ 31) :
    (0 ≤ r.id → (r.get_id : Int) = r.id) ∧
    (r.id < 0 → (r.get_id : Int) = r.id + 2 ^ 64) ∧
    (0 ≤ r.state → (r.get_state : Int) = r.state) ∧
    (r.state < 0 → (r.get_state : Int) = r.state + 2 ^ 64) := by
  unfold CupsJobsS.get_id CupsJobsS.get_state i32_as_u64
  refine ⟨fun h => ?_, fun h => ?_, fun h => ?_, fun h => ?_⟩ <;> omega

/-- C9 witness: a record with id `-1` and state `-2` maps to the wrapped
unsigned values `2 ^ 64 - 1` and `2 ^ 64 - 2`. -/
theorem id_state_widening_witness :
    (negativeIdJob.get_id : Int) = -1 + 2 ^ 64 :=
  (id_state_widening negativeIdJob
    (by decide) (by decide) (by decide) (by decide)).2.1 (by decide)

/-- C10: `print_file` has exactly two outcomes: success with unit, or
failure carrying exactly the static string "cupsPrintFile failed". -/
theorem print_file_outcomes (env : PrintFileEnv)
    (printer_name file_path : String) (job_name : Option String)
    (options : PrintOptions) :
    print_file env printer_name file_path job_name options =
        Except.ok () ∨
    print_file env printer_name file_path job_name options =
        Except.error "cupsPrintFile failed" := by
  by_cases h : env (printFileArgs printer_name file_path job_name options) = 0
  · exact Or.inr (by simp [print_file, h])
  · exact Or.inl (by simp [print_file, h])
